import Mathlib

/-!
# Verification of the lesson-reminder engine (`storage.py`, `bot.py`)

Shallow embedding of the scheduling/reminder core of the repository.

Conventions:
* Instants (`datetime` values serialized with `isoformat(timespec="seconds")`)
  are modelled as `Int` seconds.  ISO-8601 strings of that fixed shape compare
  lexicographically exactly as the instants compare chronologically, so SQL
  string comparison (`<=`) becomes integer `≤`.  30 minutes = 1800 s,
  10 minutes = 600 s, 5 minutes = 300 s.
* Nullable columns (from the additive migration path) are `Option Int`.
* SQL `UPDATE`/`SELECT` over a table is modelled as `List.map` / `List.filter`,
  `ORDER BY` as `List.insertionSort`.
* Python `float` payment amounts are modelled as `ℚ` (all amounts appearing in
  the claims are exactly representable, and their products are exact).
-/

/-- One row of the `lessons` table (see `storage.py`, `_init_db`).
`lesson_end_dt` and `end_reminder_dt` are nullable via the `ALTER TABLE`
migration branch, hence `Option Int`. -/
structure LessonRow where
  id : Int
  chat_id : Int
  school : String
  student_name : String
  lesson_dt : Int
  lesson_end_dt : Option Int
  reminder_dt : Int
  end_reminder_dt : Option Int
  reminded : Bool
  end_reminded : Bool
deriving DecidableEq

/-- `LessonStartReminder` dataclass of `storage.py`. -/
structure LessonStartReminder where
  lesson_id : Int
  chat_id : Int
  school : String
  student_name : String
  lesson_start_dt : Int
  lesson_end_dt : Int
deriving DecidableEq

/-- `LessonEndReminder` dataclass of `storage.py`. -/
structure LessonEndReminder where
  lesson_id : Int
  chat_id : Int
  student_name : String
  lesson_end_dt : Int
deriving DecidableEq

/-- `PostLessonAction` dataclass of `storage.py`. -/
structure PostLessonAction where
  lesson_id : Int
  chat_id : Int
  school : String
  student_name : String
  lesson_start_dt : Int
  lesson_end_dt : Int
deriving DecidableEq

/-- One row of the `lesson_reports` table. -/
structure ReportRow where
  id : Int
  chat_id : Int
  full_name : String
  school : String
  payment : String
  payment_uah : ℚ
  created_at : Int
deriving DecidableEq

/-- One row of the `chats` table. -/
structure ChatRow where
  chat_id : Int
  teacher_name : String
  updated_at : Int
deriving DecidableEq

/-- One row of the `pending_report_notifications` table. -/
structure PendingRow where
  id : Int
  chat_id : Int
  message_id : Int
  is_open : Bool
  created_at : Int
deriving DecidableEq

/-- The SQLite database owned by `Storage`. -/
structure Storage where
  lessons : List LessonRow
  lesson_reports : List ReportRow
  chats : List ChatRow
  pending_report_notifications : List PendingRow
deriving DecidableEq

/-! ### `ORDER BY` relations -/

/-- `ORDER BY lesson_dt ASC` on lesson rows. -/
def rowStartLE (a b : LessonRow) : Prop := a.lesson_dt ≤ b.lesson_dt

instance : DecidableRel rowStartLE := fun a b => Int.decLe _ _

instance : IsTotal LessonRow rowStartLE := ⟨fun a b => Int.le_total a.lesson_dt b.lesson_dt⟩

instance : IsTrans LessonRow rowStartLE := ⟨fun _ _ _ h h' => le_trans h h'⟩

/-- SQLite ordering on a nullable text column: `NULL` sorts before every
value, two non-`NULL` ISO strings compare as their instants. -/
def optDtLE (x y : Option Int) : Prop :=
  match x, y with
  | none, _ => True
  | some _, none => False
  | some a, some b => a ≤ b

instance : DecidableRel optDtLE := fun x y =>
  match x, y with
  | none, _ => .isTrue trivial
  | some _, none => .isFalse id
  | some a, some b => Int.decLe a b

instance : IsTotal (Option Int) optDtLE :=
  ⟨fun x y => by cases x <;> cases y <;> simp [optDtLE] <;> exact Int.le_total _ _⟩

instance : IsTrans (Option Int) optDtLE :=
  ⟨fun x y z h h' => by
    cases x <;> cases y <;> cases z <;> simp_all [optDtLE] <;> exact le_trans h h'⟩

/-- `ORDER BY lesson_end_dt ASC` on lesson rows. -/
def rowEndLE (a b : LessonRow) : Prop := optDtLE a.lesson_end_dt b.lesson_end_dt

instance : DecidableRel rowEndLE := fun a b => inferInstanceAs (Decidable (optDtLE _ _))

instance : IsTotal LessonRow rowEndLE := ⟨fun a b => IsTotal.total (r := optDtLE) _ _⟩

instance : IsTrans LessonRow rowEndLE :=
  ⟨fun _ _ _ h h' => IsTrans.trans (r := optDtLE) _ _ _ h h'⟩

/-- `ORDER BY updated_at DESC` on chat rows. -/
def chatUpdGE (a b : ChatRow) : Prop := b.updated_at ≤ a.updated_at

instance : DecidableRel chatUpdGE := fun a b => Int.decLe _ _

instance : IsTotal ChatRow chatUpdGE := ⟨fun a b => Int.le_total b.updated_at a.updated_at⟩

instance : IsTrans ChatRow chatUpdGE := ⟨fun _ _ _ h h' => le_trans h' h⟩

/-! ### Row projections performed by the Python query loops -/

/-- Projection of a lesson row to `LessonStartReminder`, as built in the loop
of `Storage.get_due_start_reminders`: when `lesson_end_dt` is `NULL` the end
defaults to `lesson_start_dt + timedelta(hours=1)`. -/
def toStartReminder (row : LessonRow) : LessonStartReminder :=
  { lesson_id := row.id
    chat_id := row.chat_id
    school := row.school
    student_name := row.student_name
    lesson_start_dt := row.lesson_dt
    lesson_end_dt := row.lesson_end_dt.getD (row.lesson_dt + 3600) }

/-- The `PostLessonAction` built for a row whose end instant is `e`. -/
def postOf (row : LessonRow) (e : Int) : PostLessonAction :=
  { lesson_id := row.id
    chat_id := row.chat_id
    school := row.school
    student_name := row.student_name
    lesson_start_dt := row.lesson_dt
    lesson_end_dt := e }

/-- Projection used by `Storage.get_due_post_lesson_actions` (rows with a
`NULL` end are skipped by the `continue`). -/
def toPostAction (row : LessonRow) : Option PostLessonAction :=
  row.lesson_end_dt.map (postOf row)

/-- Projection used by `Storage.get_due_end_reminders` (rows with a `NULL`
`lesson_end_dt` are skipped by the `continue`). -/
def toEndReminder (row : LessonRow) : Option LessonEndReminder :=
  row.lesson_end_dt.map fun e =>
    { lesson_id := row.id
      chat_id := row.chat_id
      student_name := row.student_name
      lesson_end_dt := e }

/-! ### Storage methods -/

/-- `WHERE` predicate of `get_due_start_reminders`:
`reminded = 0 AND reminder_dt <= now`. -/
def dueStartPred (now : Int) (row : LessonRow) : Bool :=
  row.reminded = false && row.reminder_dt ≤ now

/-- `Storage.get_due_start_reminders`:
`SELECT … WHERE reminded = 0 AND reminder_dt <= ? ORDER BY lesson_dt ASC`,
then the Python loop projects each row to a `LessonStartReminder`. -/
def Storage.get_due_start_reminders (st : Storage) (now : Int) : List LessonStartReminder :=
  (((st.lessons.filter (dueStartPred now)).insertionSort rowStartLE).map toStartReminder)

/-- `WHERE` predicate of `get_due_end_reminders`:
`end_reminded = 0 AND end_reminder_dt IS NOT NULL AND end_reminder_dt <= now`. -/
def dueEndPred (now : Int) (row : LessonRow) : Bool :=
  row.end_reminded = false &&
    (match row.end_reminder_dt with
     | none => false
     | some d => d ≤ now)

/-- `Storage.get_due_end_reminders`:
`SELECT … WHERE end_reminded = 0 AND end_reminder_dt IS NOT NULL AND
end_reminder_dt <= ? ORDER BY lesson_end_dt ASC`, then the Python loop skips
rows without a `lesson_end_dt` and projects the rest. -/
def Storage.get_due_end_reminders (st : Storage) (now : Int) : List LessonEndReminder :=
  (((st.lessons.filter (dueEndPred now)).insertionSort rowEndLE).filterMap toEndReminder)

/-- `WHERE` predicate of `get_due_post_lesson_actions`:
`lesson_end_dt IS NOT NULL AND lesson_end_dt <= now − 5 min`. -/
def duePostPred (now : Int) (row : LessonRow) : Bool :=
  match row.lesson_end_dt with
  | none => false
  | some e => e ≤ now - 300

/-- `Storage.get_due_post_lesson_actions`: the threshold is
`now - timedelta(minutes=5)`; `SELECT … WHERE lesson_end_dt IS NOT NULL AND
lesson_end_dt <= threshold ORDER BY lesson_end_dt ASC`, then projection. -/
def Storage.get_due_post_lesson_actions (st : Storage) (now : Int) : List PostLessonAction :=
  (((st.lessons.filter (duePostPred now)).insertionSort rowEndLE).filterMap toPostAction)

/-- Effect of `UPDATE lessons SET reminded = 1 WHERE id = ?` on one row. -/
def markRowStart (lesson_id : Int) (row : LessonRow) : LessonRow :=
  if row.id = lesson_id then { row with reminded := true } else row

/-- Effect of `UPDATE lessons SET end_reminded = 1 WHERE id = ?` on one row. -/
def markRowEnd (lesson_id : Int) (row : LessonRow) : LessonRow :=
  if row.id = lesson_id then { row with end_reminded := true } else row

/-- `Storage.mark_start_reminded`:
`UPDATE lessons SET reminded = 1 WHERE id = ?`. -/
def Storage.mark_start_reminded (st : Storage) (lesson_id : Int) : Storage :=
  { st with lessons := st.lessons.map (markRowStart lesson_id) }

/-- `Storage.mark_end_reminded`:
`UPDATE lessons SET end_reminded = 1 WHERE id = ?`. -/
def Storage.mark_end_reminded (st : Storage) (lesson_id : Int) : Storage :=
  { st with lessons := st.lessons.map (markRowEnd lesson_id) }

/-- `Storage.add_lesson`: inserts a row with `reminded = 0, end_reminded = 0`;
the `AUTOINCREMENT` id is one more than the number of rows ever inserted,
modelled here as `list length + 1` (adequate since no claim deletes rows).
`created_at` is the creation instant. -/
def Storage.add_lesson (st : Storage) (chat_id : Int) (school student_name : String)
    (lesson_start_dt reminder_start_dt lesson_end_dt reminder_end_dt : Int) : Storage :=
  { st with lessons := st.lessons ++
      [{ id := (st.lessons.length : Int) + 1
         chat_id := chat_id
         school := school
         student_name := student_name
         lesson_dt := lesson_start_dt
         lesson_end_dt := some lesson_end_dt
         reminder_dt := reminder_start_dt
         end_reminder_dt := some reminder_end_dt
         reminded := false
         end_reminded := false }] }

/-- `Storage.add_lesson_report`: inserts a report row. -/
def Storage.add_lesson_report (st : Storage) (chat_id : Int) (full_name school payment : String)
    (payment_uah : ℚ) (created_at : Int) : Storage :=
  { st with lesson_reports := st.lesson_reports ++
      [{ id := (st.lesson_reports.length : Int) + 1
         chat_id := chat_id
         full_name := full_name
         school := school
         payment := payment
         payment_uah := payment_uah
         created_at := created_at }] }

/-- SQLite comparison `chat_id = ?` where the bound parameter may be `NULL`:
`x = NULL` evaluates to `NULL`, which excludes the row, so a `NULL` parameter
matches no row at all. -/
def sqlEqParam (x : Int) (p : Option Int) : Bool :=
  match p with
  | none => false
  | some v => x = v

/-- `Storage.total_payment_uah`:
`SELECT COALESCE(SUM(payment_uah), 0) … WHERE chat_id = ?`. -/
def Storage.total_payment_uah (st : Storage) (chat_id : Option Int) : ℚ :=
  ((st.lesson_reports.filter fun r => sqlEqParam r.chat_id chat_id).map
    (·.payment_uah)).sum

/-- `Storage.list_chats`: `SELECT chat_id, teacher_name FROM chats ORDER BY
updated_at DESC`. -/
def Storage.list_chats (st : Storage) : List ChatRow :=
  st.chats.insertionSort chatUpdGE

/-- `Storage.add_pending_report_notification(self, chat_id, message_id)`:
inserts an open pending-notification row (this is the only signature the
class defines — it takes no `lesson_id`). -/
def Storage.add_pending_report_notification (st : Storage) (chat_id message_id : Int)
    (created_at : Int) : Storage :=
  { st with pending_report_notifications := st.pending_report_notifications ++
      [{ id := (st.pending_report_notifications.length : Int) + 1
         chat_id := chat_id
         message_id := message_id
         is_open := true
         created_at := created_at }] }

/-! ### `bot.py`: payment parsing -/

/-- Python `str.strip()`: drop whitespace from both ends. -/
def pyStrip (s : List Char) : List Char :=
  ((s.dropWhile Char.isWhitespace).reverse.dropWhile Char.isWhitespace).reverse

/-- Python `str.lower()` (ASCII-faithful; every input the claims exercise is
already lowercase outside ASCII letters). -/
def pyLower (s : List Char) : List Char :=
  s.map Char.toLower

/-- Scanner for `replaceDrop`: `skip` counts characters of a just-matched
occurrence still to be consumed without output (so matching never resumes
inside an occurrence — Python replaces non-overlapping occurrences left to
right). -/
def replaceDropAux (pat : List Char) : Nat → List Char → List Char
  | _, [] => []
  | skip + 1, _ :: rest => replaceDropAux pat skip rest
  | 0, c :: rest =>
    if !pat.isEmpty && pat.isPrefixOf (c :: rest) then
      replaceDropAux pat (pat.length - 1) rest
    else
      c :: replaceDropAux pat 0 rest

/-- Python `str.replace(pat, "")`: delete non-overlapping occurrences of
`pat`, scanning left to right. -/
def replaceDrop (pat s : List Char) : List Char :=
  replaceDropAux pat 0 s

/-- Python `str.replace(old, new)` for single characters. -/
def replaceChar (old new : Char) (s : List Char) : List Char :=
  s.map fun c => if c = old then new else c

/-- Python `str.replace(ch, "")` for a single character. -/
def removeChar (ch : Char) (s : List Char) : List Char :=
  s.filter fun c => c ≠ ch

/-- Numeric value of a digit string. -/
def digitsVal (ds : List Char) : ℕ :=
  ds.foldl (fun n c => 10 * n + (c.toNat - '0'.toNat)) 0

/-- Value of `intPart.fracPart` as an exact rational. -/
def numVal (intPart fracPart : List Char) : ℚ :=
  (digitsVal intPart : ℚ) + (digitsVal fracPart : ℚ) / (10 ^ fracPart.length : ℚ)

/-- Match the regex fragment `\d+(?:\.\d+)?` at the head of `s`, returning the
value and the unconsumed suffix.  The optional fraction group is taken only
when a digit follows the dot, exactly as the regex engine backtracks. -/
def readNumber (s : List Char) : Option (ℚ × List Char) :=
  let ds := s.takeWhile Char.isDigit
  let rest := s.dropWhile Char.isDigit
  if ds.isEmpty then none
  else
    match rest with
    | '.' :: rest2 =>
      let fs := rest2.takeWhile Char.isDigit
      if fs.isEmpty then some ((digitsVal ds : ℚ), rest)
      else some (numVal ds fs, rest2.dropWhile Char.isDigit)
    | _ => some ((digitsVal ds : ℚ), rest)

/-- The character class `[*xх]` (ASCII `x` and Cyrillic `х`). -/
def isMulChar (c : Char) : Bool :=
  c = '*' || c = 'x' || c = 'х'

/-- `re.fullmatch(r"(\d+(?:\.\d+)?)\s*[*xх]\s*(\d+(?:\.\d+)?)", value)`,
returning the product of the two groups as Python does. -/
def matchProduct (s : List Char) : Option ℚ :=
  match readNumber s with
  | none => none
  | some (a, rest) =>
    match rest.dropWhile Char.isWhitespace with
    | [] => none
    | c :: rest2 =>
      if isMulChar c then
        match readNumber (rest2.dropWhile Char.isWhitespace) with
        | some (b, []) => some (a * b)
        | _ => none
      else none

/-- `re.fullmatch(r"\d+(?:\.\d+)?", value)`. -/
def matchPlain (s : List Char) : Option ℚ :=
  match readNumber s with
  | some (a, []) => some a
  | _ => none

/-- `parse_payment_uah` (`bot.py`): strip/lower, delete `"грн"`/`"uah"`, map
`","` to `"."`, delete spaces; empty → `None`; else try the product shape,
then the plain-number shape.  Amounts are exact rationals (the Python floats
at every claimed input are exact). -/
def parse_payment_uah (raw : String) : Option ℚ :=
  let value := pyLower (pyStrip raw.toList)
  let value := replaceDrop "грн".toList value
  let value := replaceDrop "uah".toList value
  let value := removeChar ' ' (replaceChar ',' '.' value)
  if value.isEmpty then none
  else
    match matchProduct value with
    | some q => some q
    | none => matchPlain value

/-! ### `bot.py`: formatting and conversation constants -/

/-- Round to the nearest integer, ties to even (the rounding of Python float
formatting). -/
def roundHalfEven (q : ℚ) : ℤ :=
  let f := ⌊q⌋
  let r := q - (f : ℚ)
  if r < 1 / 2 then f
  else if 1 / 2 < r then f + 1
  else if f % 2 = 0 then f else f + 1

/-- `format_uah` (`bot.py`): integral amounts render as `f"{int(amount)} грн"`,
others as `f"{amount:.2f} грн"` (two decimals, round half to even; exact for
the dyadic amounts float arithmetic produces at the claimed inputs). -/
def format_uah (q : ℚ) : String :=
  if q.den = 1 then toString q.num ++ " грн"
  else
    let c := roundHalfEven (q * 100)
    let a := c.natAbs
    (if c < 0 then "-" else "") ++ toString (a / 100) ++ "." ++
      (if a % 100 < 10 then "0" else "") ++ toString (a % 100) ++ " грн"

/-- Conversation state `REPORT_PAYMENT` (index 10 of the `range(11)` tuple in
`bot.py`). -/
def REPORT_PAYMENT : Int := 10

/-- `ConversationHandler.END`. -/
def CONV_END : Int := -1

/-! ### `bot.py`: booking (`lesson_end_minute`) -/

/-- Core of `lesson_end_minute` (`bot.py`, lines 620–661): once the end time
is assembled, `lesson_end_dt <= lesson_start_dt` re-prompts without writing
(modelled as `none`); otherwise the start reminder is `start − 30 min` and the
end reminder `end − 10 min`, each floored at `now` when already past, and the
lesson is stored via `Storage.add_lesson`. -/
def bookLesson (st : Storage) (now chat_id : Int) (school student : String)
    (lesson_start_dt lesson_end_dt : Int) : Option Storage :=
  if lesson_end_dt ≤ lesson_start_dt then none
  else
    let start_reminder_dt := lesson_start_dt - 1800
    let start_reminder_dt := if start_reminder_dt < now then now else start_reminder_dt
    let end_reminder_dt := lesson_end_dt - 600
    let end_reminder_dt := if end_reminder_dt < now then now else end_reminder_dt
    some (st.add_lesson chat_id school student lesson_start_dt start_reminder_dt
      lesson_end_dt end_reminder_dt)

/-! ### `bot.py`: report intake (`report_payment`) -/

/-- `report_payment` (`bot.py`, lines 748–801): parse the payment text; on
failure reply with the format hint and stay in `REPORT_PAYMENT`, persisting
nothing; on success persist the report via `Storage.add_lesson_report`, then
call `storage.consume_open_pending_report_notifications_for_lesson` (when the
flow carries a truthy lesson id) or
`storage.consume_latest_open_pending_report_notification` — neither method
exists on `Storage` in `storage.py` (it defines only
`consume_latest_pending_report_notification(chat_id)`), so Python raises
`AttributeError` there, before any total is computed or reported. -/
def report_payment (st : Storage) (chat_id : Int) (report_name report_school : String)
    (report_lesson_id : Option Int) (text : String) (created_at : Int) :
    Except String (Storage × Int) :=
  match parse_payment_uah (String.mk (pyStrip text.toList)) with
  | none => .ok (st, REPORT_PAYMENT)
  | some payment_uah =>
    let payment := format_uah payment_uah
    let st := st.add_lesson_report chat_id report_name report_school payment
      payment_uah created_at
    if report_lesson_id.getD 0 ≠ 0 then
      .error "AttributeError: Storage object has no attribute consume_open_pending_report_notifications_for_lesson"
    else
      .error "AttributeError: Storage object has no attribute consume_latest_open_pending_report_notification"

/-! ### `bot.py`: the reminder sweep (`reminder_worker`) -/

/-- `get_registered_chat_ids` (`bot.py`): chat ids from `Storage.list_chats`,
appending the fallback when it is not `None` and not already present. -/
def get_registered_chat_ids (st : Storage) (fallback_chat_id : Option Int) : List Int :=
  let ids := st.list_chats.map (·.chat_id)
  match fallback_chat_id with
  | some f => if f ∈ ids then ids else ids ++ [f]
  | none => ids

/-- A dispatch attempt recorded by the sweep: (phase, lesson id, chat id);
phase 0 = start reminders, 1 = end reminders, 2 = post-lesson prompts. -/
abbrev Att := Nat × Int × Int

/-- One iteration of the start-reminder loop of `reminder_worker`: every
registered recipient gets a send attempt (each inside its own `try`), and
`mark_start_reminded` runs exactly when some attempt succeeded.  `sendOk` is
the transport oracle: whether `bot.send_message` succeeds for
(lesson id, chat id). -/
def startPhaseStep (sendOk : Int → Int → Bool) (acc : Storage × List Att)
    (r : LessonStartReminder) : Storage × List Att :=
  let recips := get_registered_chat_ids acc.1 (some r.chat_id)
  let log := acc.2 ++ recips.map fun c => ((0, r.lesson_id, c) : Att)
  let sent_to_any := recips.any fun c => sendOk r.lesson_id c
  if sent_to_any then (acc.1.mark_start_reminded r.lesson_id, log) else (acc.1, log)

/-- Phase 1 of `reminder_worker`: fold the start-reminder loop over the due
list fetched once at sweep start. -/
def sweepStartPhase (sendOk : Int → Int → Bool) (st : Storage) (now : Int) :
    Storage × List Att :=
  (st.get_due_start_reminders now).foldl (startPhaseStep sendOk) (st, [])

/-- One iteration of the end-reminder loop of `reminder_worker`. -/
def endPhaseStep (sendOk : Int → Int → Bool) (acc : Storage × List Att)
    (r : LessonEndReminder) : Storage × List Att :=
  let recips := get_registered_chat_ids acc.1 (some r.chat_id)
  let log := acc.2 ++ recips.map fun c => ((1, r.lesson_id, c) : Att)
  let sent_to_any := recips.any fun c => sendOk r.lesson_id c
  if sent_to_any then (acc.1.mark_end_reminded r.lesson_id, log) else (acc.1, log)

/-- Phase 2 of `reminder_worker`. -/
def sweepEndPhase (sendOk : Int → Int → Bool) (stLog : Storage × List Att) (now : Int) :
    Storage × List Att :=
  (stLog.1.get_due_end_reminders now).foldl (endPhaseStep sendOk) stLog

/-- `Storage` in `storage.py` defines no `mark_post_notified`; the call at the
end of the post-lesson loop (outside any `try`) raises `AttributeError`. -/
def mark_post_notified_call (st : Storage) (lesson_id : Int) : Except String Storage :=
  .error "AttributeError: Storage object has no attribute mark_post_notified"

/-- Body of the `try` block in the post-lesson loop of `reminder_worker`:
send the prompt (fallible), then call
`storage.add_pending_report_notification(chat_id, int(sent.message_id),
lesson_id=action.lesson_id)`.  `Storage.add_pending_report_notification` in
`storage.py` accepts only `(chat_id, message_id)`, so the keyword argument
raises `TypeError` inside the `try`; the trailing `sent_to_any = True` is
therefore unreachable. -/
def postAttemptBody (sendOk : Bool) (st : Storage) (chat_id message_id lesson_id : Int) :
    Except String (Storage × Bool) := do
  if sendOk then pure () else throw "send_message failed"
  let _ ← (throw "TypeError: add_pending_report_notification got an unexpected keyword argument lesson_id" : Except String Unit)
  pure (st, true)

/-- One recipient of the post-lesson loop: run the `try` body; any exception
is caught and logged, leaving state and `sent_to_any` unchanged.  `mid` is the
oracle for `sent.message_id`. -/
def postChatStep (sendOk : Int → Int → Bool) (mid : Int → Int → Int) (lesson_id : Int)
    (acc : Storage × Bool) (c : Int) : Storage × Bool :=
  match postAttemptBody (sendOk lesson_id c) acc.1 c (mid lesson_id c) lesson_id with
  | .ok (st, flag) => (st, acc.2 || flag)
  | .error _ => acc

/-- One iteration of the post-lesson loop of `reminder_worker`: attempt every
recipient, then `if sent_to_any: storage.mark_post_notified(...)` — a call
that, when reached, raises uncaught. -/
def postPhaseStep (sendOk : Int → Int → Bool) (mid : Int → Int → Int)
    (acc : Except String (Storage × List Att)) (a : PostLessonAction) :
    Except String (Storage × List Att) :=
  match acc with
  | .error e => .error e
  | .ok (st, log) =>
    let recips := get_registered_chat_ids st (some a.chat_id)
    let log := log ++ recips.map fun c => ((2, a.lesson_id, c) : Att)
    let res := recips.foldl (postChatStep sendOk mid a.lesson_id) (st, false)
    if res.2 then
      match mark_post_notified_call res.1 a.lesson_id with
      | .error e => .error e
      | .ok st2 => .ok (st2, log)
    else
      .ok (res.1, log)

/-- `reminder_worker` (`bot.py`, lines 920–1007): one sweep at instant `now`.
The three due lists are fetched sequentially, each after the previous phase
has run; the result also carries the list of all dispatch attempts made. -/
def reminder_worker (sendStartOk sendEndOk sendPostOk : Int → Int → Bool)
    (mid : Int → Int → Int) (st : Storage) (now : Int) :
    Except String (Storage × List Att) :=
  let s1 := sweepStartPhase sendStartOk st now
  let s2 := sweepEndPhase sendEndOk s1 now
  (s2.1.get_due_post_lesson_actions now).foldl (postPhaseStep sendPostOk mid) (.ok s2)

/-! ### Helper lemmas -/

/-- Membership characterization of the due-start-reminder query. -/
lemma mem_due_start {st : Storage} {now : Int} {r : LessonStartReminder} :
    r ∈ st.get_due_start_reminders now ↔
      ∃ row ∈ st.lessons, row.reminded = false ∧ row.reminder_dt ≤ now ∧
        r = toStartReminder row := by
  simp only [Storage.get_due_start_reminders, List.mem_map, List.mem_insertionSort,
    List.mem_filter, dueStartPred, Bool.and_eq_true, decide_eq_true_eq]
  constructor
  · rintro ⟨row, ⟨hmem, hrem, hdt⟩, rfl⟩
    exact ⟨row, hmem, hrem, hdt, rfl⟩
  · rintro ⟨row, hmem, hrem, hdt, rfl⟩
    exact ⟨row, ⟨hmem, hrem, hdt⟩, rfl⟩

/-- The due-start-reminder query is sorted by lesson start. -/
lemma pairwise_due_start (st : Storage) (now : Int) :
    (st.get_due_start_reminders now).Pairwise
      (fun a b => a.lesson_start_dt ≤ b.lesson_start_dt) := by
  unfold Storage.get_due_start_reminders
  exact List.Pairwise.map _ (fun a b h => h)
    (List.sorted_insertionSort rowStartLE _)

/-- Unfolding of the post-lesson `WHERE` predicate. -/
lemma duePostPred_iff {now : Int} {row : LessonRow} :
    duePostPred now row = true ↔
      ∃ e, row.lesson_end_dt = some e ∧ e ≤ now - 300 := by
  unfold duePostPred
  rcases hrow : row.lesson_end_dt with _ | e <;> simp [hrow]

/-- Membership characterization of the due-post-lesson-action query. -/
lemma mem_due_post {st : Storage} {now : Int} {a : PostLessonAction} :
    a ∈ st.get_due_post_lesson_actions now ↔
      ∃ row ∈ st.lessons, ∃ e, row.lesson_end_dt = some e ∧ e ≤ now - 300 ∧
        a = postOf row e := by
  simp only [Storage.get_due_post_lesson_actions, List.mem_filterMap,
    List.mem_insertionSort, List.mem_filter, toPostAction, Option.map_eq_some',
    duePostPred_iff]
  constructor
  · rintro ⟨row, ⟨hmem, e, he, hle⟩, e', he', rfl⟩
    rw [he] at he'
    cases Option.some.inj he'
    exact ⟨row, hmem, e, he, hle, rfl⟩
  · rintro ⟨row, hmem, e, he, hle, rfl⟩
    exact ⟨row, ⟨hmem, e, he, hle⟩, e, he, rfl⟩

/-- `pyStrip` rephrased through `List.rdropWhile`. -/
lemma pyStrip_eq (s : List Char) :
    pyStrip s = List.rdropWhile Char.isWhitespace (s.dropWhile Char.isWhitespace) := rfl

/-- A prefix of a list with no leading match still has no leading match. -/
lemma prefix_dropWhile_eq_self {p : Char → Bool} {m t : List Char}
    (hm : m.dropWhile p = m) (ht : t <+: m) : t.dropWhile p = t := by
  cases t with
  | nil => rfl
  | cons c t2 =>
    obtain ⟨r, rfl⟩ := ht
    have hpc : p c = false := by
      by_contra hpc
      rw [Bool.not_eq_false] at hpc
      rw [List.cons_append, List.dropWhile_cons_of_pos hpc] at hm
      have hlen := (List.dropWhile_sublist (l := t2 ++ r) p).length_le
      have := congrArg List.length hm
      simp only [List.length_cons] at this
      omega
    rw [List.dropWhile_cons_of_neg (by simp [hpc])]

/-- Python `strip` is idempotent. -/
lemma pyStrip_idem (s : List Char) : pyStrip (pyStrip s) = pyStrip s := by
  rw [pyStrip_eq, pyStrip_eq]
  have h1 : (s.dropWhile Char.isWhitespace).dropWhile Char.isWhitespace
      = s.dropWhile Char.isWhitespace := List.dropWhile_idempotent _ _
  have h2 : (List.rdropWhile Char.isWhitespace (s.dropWhile Char.isWhitespace)).dropWhile
        Char.isWhitespace
      = List.rdropWhile Char.isWhitespace (s.dropWhile Char.isWhitespace) :=
    prefix_dropWhile_eq_self h1 (List.rdropWhile_prefix _ _)
  rw [h2, List.rdropWhile_idempotent]

/-- Pre-stripping the text (as `report_payment` does) never changes the parse
result, because `parse_payment_uah` strips first anyway. -/
lemma parse_payment_strip (s : String) :
    parse_payment_uah (String.mk (pyStrip s.toList)) = parse_payment_uah s := by
  unfold parse_payment_uah
  have h : (String.mk (pyStrip s.toList)).toList = pyStrip s.toList := rfl
  rw [h, pyStrip_idem]

/-! ### Claims -/

/-- C5: a lesson booked with start `S` and end `E` (`E > S`) is stored with
`reminder_dt = S − 30 min` and `end_reminder_dt = E − 10 min`, each replaced
by the creation-time `now` when the computed instant is earlier than `now`. -/
theorem booking_reminder_instants (st : Storage) (now chat_id : Int)
    (school student : String) (S E : Int) (h : S < E) :
    ∃ st', bookLesson st now chat_id school student S E = some st' ∧
      ∃ row, st'.lessons = st.lessons ++ [row] ∧ row.lesson_dt = S ∧
        row.lesson_end_dt = some E ∧
        row.reminder_dt = (if S - 1800 < now then now else S - 1800) ∧
        row.end_reminder_dt = some (if E - 600 < now then now else E - 600) := by
  unfold bookLesson
  rw [if_neg (by omega)]
  exact ⟨_, rfl, _, rfl, rfl, rfl, rfl, rfl⟩

/-- Witness for C5: booking `10000–13600` at `now = 0` on an empty store. -/
theorem booking_reminder_instants_witness :
    (10000 : Int) < 13600 ∧
      ∃ st', bookLesson ⟨[], [], [], []⟩ 0 7 "Yarko" "Ann" 10000 13600 = some st' ∧
        ∃ row, st'.lessons = Storage.lessons ⟨[], [], [], []⟩ ++ [row] ∧
          row.lesson_dt = 10000 ∧ row.lesson_end_dt = some 13600 ∧
          row.reminder_dt = (if (10000 : Int) - 1800 < 0 then 0 else 10000 - 1800) ∧
          row.end_reminder_dt = some (if (13600 : Int) - 600 < 0 then 0 else 13600 - 600) :=
  ⟨by decide, booking_reminder_instants ⟨[], [], [], []⟩ 0 7 "Yarko" "Ann" 10000 13600 (by decide)⟩

/-- C6: a lesson ending exactly 5 minutes before `now` is included in the due
post-lesson actions, one ending 4 minutes 59 seconds before `now` is not. -/
theorem post_lesson_grace_boundary (st : Storage) (now : Int) :
    (∀ row ∈ st.lessons, row.lesson_end_dt = some (now - 300) →
        postOf row (now - 300) ∈ st.get_due_post_lesson_actions now) ∧
      ∀ row ∈ st.lessons, row.lesson_end_dt = some (now - 299) →
        postOf row (now - 299) ∉ st.get_due_post_lesson_actions now := by
  constructor
  · intro row hmem he
    exact mem_due_post.mpr ⟨row, hmem, now - 300, he, by omega, rfl⟩
  · intro row hmem he hcontra
    obtain ⟨row2, _, e, _, hle, heq⟩ := mem_due_post.mp hcontra
    have : now - 299 = e := congrArg PostLessonAction.lesson_end_dt heq
    omega

/-- Lesson row ending exactly 5 minutes before `now = 1000`. -/
def c6row1 : LessonRow :=
  ⟨1, 5, "Yarko", "Ann", 100, some 700, 0, some 500, false, false⟩

/-- Lesson row ending 4 minutes 59 seconds before `now = 1000`. -/
def c6row2 : LessonRow :=
  ⟨2, 5, "Uknow", "Bob", 150, some 701, 0, some 550, false, false⟩

/-- Store holding the two boundary rows. -/
def c6st : Storage := ⟨[c6row1, c6row2], [], [], []⟩

/-- Witness for C6 at `now = 1000`: end 700 is due, end 701 is not. -/
theorem post_lesson_grace_boundary_witness :
    postOf c6row1 700 ∈ c6st.get_due_post_lesson_actions 1000 ∧
      postOf c6row2 701 ∉ c6st.get_due_post_lesson_actions 1000 :=
  ⟨(post_lesson_grace_boundary c6st 1000).1 c6row1 (by decide) (by decide),
   (post_lesson_grace_boundary c6st 1000).2 c6row2 (by decide) (by decide)⟩

/-- C7: the payment parser maps `"500"` to 500, `"2*350"` to 700,
`"2 x 350"` to 700, and `"abc"` to a parse failure (the Python floats at
these inputs are exact, so the rational results coincide with them). -/
theorem payment_parse_examples :
    parse_payment_uah "500" = some 500 ∧ parse_payment_uah "2*350" = some 700 ∧
      parse_payment_uah "2 x 350" = some 700 ∧ parse_payment_uah "abc" = none := by
  refine ⟨by decide, ?_, ?_, by decide⟩
  · have h : parse_payment_uah "2*350" = some (((2 : ℕ) : ℚ) * ((350 : ℕ) : ℚ)) := rfl
    rw [h]; norm_num
  · have h : parse_payment_uah "2 x 350" = some (((2 : ℕ) : ℚ) * ((350 : ℕ) : ℚ)) := rfl
    rw [h]; norm_num

/-- C8: when the payment text matches no supported shape the report step
persists nothing — the store (reports and pending notifications included) is
returned unchanged — and the conversation stays in `REPORT_PAYMENT`. -/
theorem report_payment_failure_no_persist (st : Storage) (chat_id : Int)
    (report_name report_school : String) (report_lesson_id : Option Int)
    (text : String) (created_at : Int)
    (h : parse_payment_uah text = none) :
    report_payment st chat_id report_name report_school report_lesson_id text created_at
      = .ok (st, REPORT_PAYMENT) := by
  unfold report_payment
  rw [parse_payment_strip, h]

/-- Witness for C8 on the unparsable input `"abc"`. -/
theorem report_payment_failure_no_persist_witness :
    parse_payment_uah "abc" = none ∧
      report_payment ⟨[], [], [], []⟩ 5 "Ann" "Yarko" none "abc" 0
        = .ok (⟨[], [], [], []⟩, REPORT_PAYMENT) :=
  ⟨by decide, report_payment_failure_no_persist ⟨[], [], [], []⟩ 5 "Ann" "Yarko" none "abc" 0
    (by decide)⟩

/-- C10: marking a lesson id that is not in the store is a no-op: the SQL
`UPDATE` matches zero rows, the call is total (raises nothing), and every
stored lesson record is unchanged. -/
theorem mark_unknown_id_noop (st : Storage) (i : Int)
    (h : ∀ row ∈ st.lessons, row.id ≠ i) :
    st.mark_start_reminded i = st ∧ st.mark_end_reminded i = st := by
  constructor
  · unfold Storage.mark_start_reminded
    rw [show st.lessons.map (markRowStart i) = st.lessons from
      (List.map_congr_left fun a ha => if_neg (h a ha)).trans (List.map_id _)]
  · unfold Storage.mark_end_reminded
    rw [show st.lessons.map (markRowEnd i) = st.lessons from
      (List.map_congr_left fun a ha => if_neg (h a ha)).trans (List.map_id _)]

/-- Store with a single lesson of id 1, for the C10 witness. -/
def c10st : Storage :=
  ⟨[⟨1, 5, "Yarko", "Ann", 100, some 200, 50, some 190, false, false⟩], [], [], []⟩

/-- Witness for C10: marking the absent id 2 changes nothing. -/
theorem mark_unknown_id_noop_witness :
    c10st.mark_start_reminded 2 = c10st ∧ c10st.mark_end_reminded 2 = c10st :=
  mark_unknown_id_noop c10st 2 (by decide)

/-- C1: for every `now`, the due-start-reminder query returns exactly the
lessons with `start_reminded = false` and `start_reminder_instant ≤ now`
(each projected to its `LessonStartReminder`), ordered by lesson start
ascending. -/
theorem due_start_reminders_exact (st : Storage) (now : Int) :
    (∀ r, r ∈ st.get_due_start_reminders now ↔
        ∃ row ∈ st.lessons, row.reminded = false ∧ row.reminder_dt ≤ now ∧
          r = toStartReminder row) ∧
      (st.get_due_start_reminders now).Pairwise
        (fun a b => a.lesson_start_dt ≤ b.lesson_start_dt) :=
  ⟨fun _ => mem_due_start, pairwise_due_start st now⟩

/-- C2: a lesson with `start_reminded = false` and reminder instant at or
before `now` is included in the due-start query at `now`; after
`mark_start_reminded` on its id, the query at the same or any later instant
excludes it. -/
theorem due_start_include_then_exclude (st : Storage) (now now2 : Int)
    (row : LessonRow) (hmem : row ∈ st.lessons) (hrem : row.reminded = false)
    (hdt : row.reminder_dt ≤ now) (hle : now ≤ now2) :
    toStartReminder row ∈ st.get_due_start_reminders now ∧
      ∀ r ∈ (st.mark_start_reminded row.id).get_due_start_reminders now2,
        r.lesson_id ≠ row.id := by
  refine ⟨mem_due_start.mpr ⟨row, hmem, hrem, hdt, rfl⟩, ?_⟩
  intro r hr hid
  obtain ⟨row2, hmem2, hrem2, _, rfl⟩ := mem_due_start.mp hr
  have hmem2b : row2 ∈ st.lessons.map (markRowStart row.id) := hmem2
  obtain ⟨q, hq, hfq⟩ := List.mem_map.mp hmem2b
  by_cases hqid : q.id = row.id
  · rw [markRowStart, if_pos hqid] at hfq
    rw [← hfq] at hrem2
    exact absurd hrem2 (by simp)
  · rw [markRowStart, if_neg hqid] at hfq
    apply hqid
    rw [hfq]
    exact hid

/-- Lesson row due for its start reminder at `now = 3200`. -/
def c2row : LessonRow := ⟨1, 5, "Yarko", "Ann", 5000, some 8600, 3200, some 8000, false, false⟩

/-- Store holding just `c2row`. -/
def c2st : Storage := ⟨[c2row], [], [], []⟩

/-- Witness for C2: `c2row` is due at 3200 and excluded after marking, even
at the later instant 4000. -/
theorem due_start_include_then_exclude_witness :
    toStartReminder c2row ∈ c2st.get_due_start_reminders 3200 ∧
      ∀ r ∈ (c2st.mark_start_reminded c2row.id).get_due_start_reminders 4000,
        r.lesson_id ≠ c2row.id :=
  due_start_include_then_exclude c2st 3200 4000 c2row (by decide) (by decide) (by decide)
    (by decide)

/-! ### The start phase as a per-row map -/

/-- Whether some delivery attempt for reminder `r` succeeds: the send loop
iterates over `get_registered_chat_ids(r.chat_id)`. -/
def anyDelivery (sendOk : Int → Int → Bool) (st0 : Storage) (r : LessonStartReminder) : Bool :=
  (get_registered_chat_ids st0 (some r.chat_id)).any (sendOk r.lesson_id)

/-- Whether the start phase over due list `rs` marks the lesson id `i`. -/
def startFlagCond (sendOk : Int → Int → Bool) (st0 : Storage)
    (rs : List LessonStartReminder) (i : Int) : Bool :=
  rs.any fun r => decide (r.lesson_id = i) && anyDelivery sendOk st0 r

/-- Per-row effect of the start phase over due list `rs`. -/
def startFlagAfter (sendOk : Int → Int → Bool) (st0 : Storage)
    (rs : List LessonStartReminder) (row : LessonRow) : LessonRow :=
  if startFlagCond sendOk st0 rs row.id then { row with reminded := true } else row

/-- The recipient list only depends on the `chats` table. -/
lemma get_registered_eq {st st2 : Storage} (h : st.chats = st2.chats)
    (f : Option Int) : get_registered_chat_ids st f = get_registered_chat_ids st2 f := by
  unfold get_registered_chat_ids Storage.list_chats
  rw [h]

@[simp] lemma markRowStart_id (i : Int) (row : LessonRow) :
    (markRowStart i row).id = row.id := by
  unfold markRowStart
  split <;> rfl

@[simp] lemma set_reminded_id (row : LessonRow) :
    ({ row with reminded := true } : LessonRow).id = row.id := rfl

/-- Peeling one reminder off the per-row map. -/
lemma startFlagAfter_cons (sendOk : Int → Int → Bool) (st0 : Storage)
    (r : LessonStartReminder) (rs : List LessonStartReminder) (row : LessonRow) :
    startFlagAfter sendOk st0 (r :: rs) row
      = startFlagAfter sendOk st0 rs
          (if anyDelivery sendOk st0 r then markRowStart r.lesson_id row else row) := by
  cases hd : anyDelivery sendOk st0 r with
  | false =>
    rw [if_neg Bool.false_ne_true]
    have hpr : (decide (r.lesson_id = row.id) && anyDelivery sendOk st0 r) = false := by
      simp [hd]
    unfold startFlagAfter startFlagCond
    simp only [List.any_cons, hpr, Bool.false_or]
  | true =>
    rw [if_pos rfl]
    by_cases hid : r.lesson_id = row.id
    · have hm : markRowStart r.lesson_id row = { row with reminded := true } :=
        if_pos hid.symm
      have hpr : (decide (r.lesson_id = row.id) && anyDelivery sendOk st0 r) = true := by
        simp [hid, hd]
      rw [hm]
      unfold startFlagAfter startFlagCond
      simp only [List.any_cons, hpr, Bool.true_or, eq_self_iff_true, if_true,
        set_reminded_id]
      split <;> rfl
    · have hm : markRowStart r.lesson_id row = row := if_neg fun h => hid h.symm
      have hpr : (decide (r.lesson_id = row.id) && anyDelivery sendOk st0 r) = false := by
        simp [hid]
      rw [hm]
      unfold startFlagAfter startFlagCond
      simp only [List.any_cons, hpr, Bool.false_or]

/-- The start-phase fold: chats are untouched and the lessons table is mapped
row-by-row through `startFlagAfter`. -/
lemma sweepStartAux (sendOk : Int → Int → Bool) (st0 : Storage) :
    ∀ (rs : List LessonStartReminder) (acc : Storage × List Att),
      acc.1.chats = st0.chats →
      (rs.foldl (startPhaseStep sendOk) acc).1.chats = st0.chats ∧
        (rs.foldl (startPhaseStep sendOk) acc).1.lessons
          = acc.1.lessons.map (startFlagAfter sendOk st0 rs)
  | [], acc, hch => by
    refine ⟨hch, ?_⟩
    symm
    refine (List.map_congr_left ?_).trans (List.map_id _)
    intro a _
    unfold startFlagAfter startFlagCond
    simp
  | r :: rs, acc, hch => by
    rw [List.foldl_cons]
    have hstep_ch : (startPhaseStep sendOk acc r).1.chats = st0.chats := by
      simp only [startPhaseStep]
      split <;> exact hch
    obtain ⟨hc, hl⟩ := sweepStartAux sendOk st0 rs (startPhaseStep sendOk acc r) hstep_ch
    refine ⟨hc, ?_⟩
    rw [hl]
    have hrecips : get_registered_chat_ids acc.1 (some r.chat_id)
        = get_registered_chat_ids st0 (some r.chat_id) := get_registered_eq hch _
    have hany : (get_registered_chat_ids acc.1 (some r.chat_id)).any
          (fun c => sendOk r.lesson_id c)
        = anyDelivery sendOk st0 r := by
      rw [hrecips]; rfl
    cases hd : anyDelivery sendOk st0 r with
    | true =>
      have hstep : (startPhaseStep sendOk acc r).1
          = acc.1.mark_start_reminded r.lesson_id := by
        simp only [startPhaseStep]
        rw [hany, hd]
        rfl
      rw [hstep]
      show (acc.1.lessons.map (markRowStart r.lesson_id)).map
          (startFlagAfter sendOk st0 rs) = _
      rw [List.map_map]
      refine List.map_congr_left ?_
      intro a _
      show startFlagAfter sendOk st0 rs (markRowStart r.lesson_id a)
        = startFlagAfter sendOk st0 (r :: rs) a
      rw [startFlagAfter_cons, if_pos hd]
    | false =>
      have hstep : (startPhaseStep sendOk acc r).1 = acc.1 := by
        simp only [startPhaseStep]
        rw [hany, hd]
        rfl
      rw [hstep]
      refine List.map_congr_left ?_
      intro a _
      rw [startFlagAfter_cons, if_neg (by simp [hd])]

/-- C3: in the start phase of a sweep at `now`, a due lesson's flag is marked
iff at least one delivery attempt for that lesson succeeded; when every
attempt fails the row is unchanged (flag still false) and the lesson is still
returned as due by the next sweep's query. -/
theorem start_flag_marked_iff_delivery (sendOk : Int → Int → Bool) (st : Storage)
    (now : Int) (row : LessonRow)
    (hnd : (st.lessons.map (fun q => q.id)).Nodup)
    (hmem : row ∈ st.lessons) (hrem : row.reminded = false) (hdt : row.reminder_dt ≤ now) :
    ∃ row2 ∈ (sweepStartPhase sendOk st now).1.lessons,
      row2.id = row.id ∧
      (row2.reminded = true ↔ anyDelivery sendOk st (toStartReminder row) = true) ∧
      (anyDelivery sendOk st (toStartReminder row) = false →
        row2 = row ∧ ∀ now2, now ≤ now2 →
          toStartReminder row ∈
            (sweepStartPhase sendOk st now).1.get_due_start_reminders now2) := by
  obtain ⟨hch, hless⟩ :=
    sweepStartAux sendOk st (st.get_due_start_reminders now) (st, []) rfl
  have hless2 : (sweepStartPhase sendOk st now).1.lessons
      = st.lessons.map
          (startFlagAfter sendOk st (st.get_due_start_reminders now)) := hless
  have hcond : startFlagCond sendOk st (st.get_due_start_reminders now) row.id
      = anyDelivery sendOk st (toStartReminder row) := by
    cases ha : anyDelivery sendOk st (toStartReminder row) with
    | true =>
      have hin : toStartReminder row ∈ st.get_due_start_reminders now :=
        mem_due_start.mpr ⟨row, hmem, hrem, hdt, rfl⟩
      unfold startFlagCond
      rw [List.any_eq_true]
      refine ⟨toStartReminder row, hin, ?_⟩
      rw [ha]
      simp [toStartReminder]
    | false =>
      unfold startFlagCond
      rw [List.any_eq_false]
      intro r hr
      obtain ⟨row3, hmem3, _, _, rfl⟩ := mem_due_start.mp hr
      by_cases hid : row3.id = row.id
      · have heq : row3 = row := List.inj_on_of_nodup_map hnd hmem3 hmem hid
        subst heq
        rw [ha]
        simp
      · simp [toStartReminder, hid]
  refine ⟨startFlagAfter sendOk st (st.get_due_start_reminders now) row, ?_, ?_, ?_, ?_⟩
  · rw [hless2]
    exact List.mem_map_of_mem _ hmem
  · unfold startFlagAfter
    split <;> rfl
  · unfold startFlagAfter
    rw [hcond]
    cases ha : anyDelivery sendOk st (toStartReminder row) with
    | true => simp
    | false => simp [hrem]
  · intro ha
    have hrow2 : startFlagAfter sendOk st (st.get_due_start_reminders now) row = row := by
      unfold startFlagAfter
      rw [hcond, ha]
      rfl
    refine ⟨hrow2, ?_⟩
    intro now2 h2
    apply mem_due_start.mpr
    refine ⟨row, ?_, hrem, le_trans hdt h2, rfl⟩
    rw [hless2]
    have hx := List.mem_map_of_mem
      (startFlagAfter sendOk st (st.get_due_start_reminders now)) hmem
    rwa [hrow2] at hx

/-- Due lesson row for the C3 witness. -/
def c3row : LessonRow := ⟨1, 5, "Yarko", "Ann", 5000, some 8600, 3200, some 8000, false, false⟩

/-- Store holding `c3row` and one registered chat. -/
def c3st : Storage := ⟨[c3row], [], [⟨5, "Ann", 0⟩], []⟩

/-- Witness for C3: with a transport that always fails, the due lesson keeps
`reminded = false` and is still due at any later instant. -/
theorem start_flag_marked_iff_delivery_witness :
    ∃ row2 ∈ (sweepStartPhase (fun _ _ => false) c3st 3200).1.lessons,
      row2.id = c3row.id ∧
      (row2.reminded = true
        ↔ anyDelivery (fun _ _ => false) c3st (toStartReminder c3row) = true) ∧
      (anyDelivery (fun _ _ => false) c3st (toStartReminder c3row) = false →
        row2 = c3row ∧ ∀ now2, (3200 : Int) ≤ now2 →
          toStartReminder c3row ∈
            (sweepStartPhase (fun _ _ => false) c3st 3200).1.get_due_start_reminders now2) :=
  start_flag_marked_iff_delivery (fun _ _ => false) c3st 3200 c3row (by decide) (by decide)
    (by decide) (by decide)

/-! ### C4: the sweep never raises and attempts every due item -/

/-- The start phase records a send attempt for every due reminder and every
registered recipient, whatever the failure pattern. -/
lemma startPhase_log (sendOk : Int → Int → Bool) (st0 : Storage) :
    ∀ (rs : List LessonStartReminder) (acc : Storage × List Att),
      acc.1.chats = st0.chats →
      (∀ x ∈ acc.2, x ∈ (rs.foldl (startPhaseStep sendOk) acc).2) ∧
        ∀ r ∈ rs, ∀ c ∈ get_registered_chat_ids st0 (some r.chat_id),
          ((0 : Nat), r.lesson_id, c) ∈ (rs.foldl (startPhaseStep sendOk) acc).2
  | [], _, _ => ⟨fun _ hx => hx, by simp⟩
  | r :: rs, acc, hch => by
    rw [List.foldl_cons]
    have hch2 : (startPhaseStep sendOk acc r).1.chats = st0.chats := by
      simp only [startPhaseStep]
      split <;> exact hch
    obtain ⟨hmono, hall⟩ := startPhase_log sendOk st0 rs (startPhaseStep sendOk acc r) hch2
    have hlog : (startPhaseStep sendOk acc r).2
        = acc.2 ++ (get_registered_chat_ids st0 (some r.chat_id)).map
            (fun c => ((0 : Nat), r.lesson_id, c)) := by
      simp only [startPhaseStep]
      rw [get_registered_eq hch]
      split <;> rfl
    constructor
    · intro x hx
      apply hmono
      rw [hlog]
      exact List.mem_append_left _ hx
    · intro r2 hr2 c hc
      rcases List.mem_cons.mp hr2 with h | h
      · subst h
        apply hmono
        rw [hlog]
        exact List.mem_append_right _ (List.mem_map_of_mem _ hc)
      · exact hall r2 h c hc

/-- The end phase: chats untouched, and a send attempt is recorded for every
due end reminder and every registered recipient. -/
lemma endPhase_log (sendOk : Int → Int → Bool) (st0 : Storage) :
    ∀ (rs : List LessonEndReminder) (acc : Storage × List Att),
      acc.1.chats = st0.chats →
      (rs.foldl (endPhaseStep sendOk) acc).1.chats = st0.chats ∧
        (∀ x ∈ acc.2, x ∈ (rs.foldl (endPhaseStep sendOk) acc).2) ∧
        ∀ r ∈ rs, ∀ c ∈ get_registered_chat_ids st0 (some r.chat_id),
          ((1 : Nat), r.lesson_id, c) ∈ (rs.foldl (endPhaseStep sendOk) acc).2
  | [], _, hch => ⟨hch, fun _ hx => hx, by simp⟩
  | r :: rs, acc, hch => by
    rw [List.foldl_cons]
    have hch2 : (endPhaseStep sendOk acc r).1.chats = st0.chats := by
      simp only [endPhaseStep]
      split <;> exact hch
    obtain ⟨hchf, hmono, hall⟩ := endPhase_log sendOk st0 rs (endPhaseStep sendOk acc r) hch2
    have hlog : (endPhaseStep sendOk acc r).2
        = acc.2 ++ (get_registered_chat_ids st0 (some r.chat_id)).map
            (fun c => ((1 : Nat), r.lesson_id, c)) := by
      simp only [endPhaseStep]
      rw [get_registered_eq hch]
      split <;> rfl
    refine ⟨hchf, ?_, ?_⟩
    · intro x hx
      apply hmono
      rw [hlog]
      exact List.mem_append_left _ hx
    · intro r2 hr2 c hc
      rcases List.mem_cons.mp hr2 with h | h
      · subst h
        apply hmono
        rw [hlog]
        exact List.mem_append_right _ (List.mem_map_of_mem _ hc)
      · exact hall r2 h c hc

/-- The per-recipient loop of the post phase never changes state or the
`sent_to_any` flag: the `try` body always raises (send failure or the
`TypeError` from the extra keyword argument) and the exception is caught. -/
lemma postChat_fold (sendOk : Int → Int → Bool) (mid : Int → Int → Int) (lesson_id : Int) :
    ∀ (recips : List Int) (z : Storage × Bool),
      recips.foldl (postChatStep sendOk mid lesson_id) z = z
  | [], _ => rfl
  | c :: recips, z => by
    rw [List.foldl_cons]
    have hstep : postChatStep sendOk mid lesson_id z c = z := by
      unfold postChatStep postAttemptBody
      cases sendOk lesson_id c <;> rfl
    rw [hstep]
    exact postChat_fold sendOk mid lesson_id recips z

/-- The post phase: never throws (`sent_to_any` is never reached, so the
missing `mark_post_notified` is never called), leaves the store unchanged,
and records a send attempt for every due action and recipient. -/
lemma postPhase_log (sendOk : Int → Int → Bool) (mid : Int → Int → Int) (st0 : Storage) :
    ∀ (as : List PostLessonAction) (st : Storage) (log : List Att),
      st.chats = st0.chats →
      ∃ logf, as.foldl (postPhaseStep sendOk mid) (.ok (st, log)) = .ok (st, logf) ∧
        (∀ x ∈ log, x ∈ logf) ∧
        ∀ a ∈ as, ∀ c ∈ get_registered_chat_ids st0 (some a.chat_id),
          ((2 : Nat), a.lesson_id, c) ∈ logf
  | [], _, log, _ => ⟨log, rfl, fun _ hx => hx, by simp⟩
  | a :: as, st, log, hch => by
    rw [List.foldl_cons]
    have hstep : postPhaseStep sendOk mid (.ok (st, log)) a
        = .ok (st, log ++ (get_registered_chat_ids st0 (some a.chat_id)).map
            (fun c => ((2 : Nat), a.lesson_id, c))) := by
      simp only [postPhaseStep]
      rw [get_registered_eq hch, postChat_fold sendOk mid a.lesson_id]
      rfl
    rw [hstep]
    obtain ⟨logf, hfold, hmono, hall⟩ := postPhase_log sendOk mid st0 as st
      (log ++ (get_registered_chat_ids st0 (some a.chat_id)).map
        (fun c => ((2 : Nat), a.lesson_id, c))) hch
    refine ⟨logf, hfold, ?_, ?_⟩
    · intro x hx
      exact hmono x (List.mem_append_left _ hx)
    · intro a2 ha2 c hc
      rcases List.mem_cons.mp ha2 with h | h
      · subst h
        exact hmono _ (List.mem_append_right _ (List.mem_map_of_mem _ hc))
      · exact hall a2 h c hc

/-- C4: one execution of the reminder sweep returns without any uncaught
exception, and — whatever the pattern of send failures — every due item of
every phase gets a dispatch attempt to every registered recipient: one
item's failure never prevents the remaining due items from being processed. -/
theorem reminder_sweep_isolated (sendStartOk sendEndOk sendPostOk : Int → Int → Bool)
    (mid : Int → Int → Int) (st : Storage) (now : Int) :
    ∃ stf log,
      reminder_worker sendStartOk sendEndOk sendPostOk mid st now = .ok (stf, log) ∧
      (∀ r ∈ st.get_due_start_reminders now,
        ∀ c ∈ get_registered_chat_ids st (some r.chat_id),
          ((0 : Nat), r.lesson_id, c) ∈ log) ∧
      (∀ r ∈ (sweepStartPhase sendStartOk st now).1.get_due_end_reminders now,
        ∀ c ∈ get_registered_chat_ids st (some r.chat_id),
          ((1 : Nat), r.lesson_id, c) ∈ log) ∧
      ∀ a ∈ (sweepEndPhase sendEndOk (sweepStartPhase sendStartOk st now)
          now).1.get_due_post_lesson_actions now,
        ∀ c ∈ get_registered_chat_ids st (some a.chat_id),
          ((2 : Nat), a.lesson_id, c) ∈ log := by
  obtain ⟨hch1, _⟩ :=
    sweepStartAux sendStartOk st (st.get_due_start_reminders now) (st, []) rfl
  obtain ⟨hmono1, hall1⟩ :=
    startPhase_log sendStartOk st (st.get_due_start_reminders now) (st, []) rfl
  obtain ⟨hch2, hmono2, hall2⟩ := endPhase_log sendEndOk st
    ((sweepStartPhase sendStartOk st now).1.get_due_end_reminders now)
    (sweepStartPhase sendStartOk st now) hch1
  obtain ⟨logf, hfold3, hmono3, hall3⟩ := postPhase_log sendPostOk mid st
    ((sweepEndPhase sendEndOk (sweepStartPhase sendStartOk st now)
        now).1.get_due_post_lesson_actions now)
    (sweepEndPhase sendEndOk (sweepStartPhase sendStartOk st now) now).1
    (sweepEndPhase sendEndOk (sweepStartPhase sendStartOk st now) now).2 hch2
  refine ⟨_, logf, hfold3, ?_, ?_, hall3⟩
  · intro r hr c hc
    exact hmono3 _ (hmono2 _ (hall1 r hr c hc))
  · intro r hr c hc
    exact hmono3 _ (hall2 r hr c hc)

/-- C9 (code bug): a successful report submission persists the report row but
then `report_payment` raises `AttributeError` — `bot.py` calls
`consume_latest_open_pending_report_notification` /
`consume_open_pending_report_notifications_for_lesson`, neither of which
`storage.py` defines — so the running total is never recomputed or reported.
Moreover the total it would have reported, `total_payment_uah(chat_id=None)`,
compares `chat_id = NULL` in SQL and is therefore 0 no matter what reports
are stored, while the true sum of persisted amounts is 500. -/
theorem report_total_code_bug :
    report_payment ⟨[], [], [], []⟩ 5 "Ann Bee" "Yarko" none "500" 0
      = .error "AttributeError: Storage object has no attribute consume_latest_open_pending_report_notification" ∧
      Storage.total_payment_uah
        (Storage.add_lesson_report ⟨[], [], [], []⟩ 5 "Ann Bee" "Yarko" "500 грн" 500 0)
        none = 0 ∧
      ((Storage.add_lesson_report ⟨[], [], [], []⟩ 5 "Ann Bee" "Yarko" "500 грн" 500
          0).lesson_reports.map (fun rp => rp.payment_uah)).sum = 500 := by
  refine ⟨rfl, rfl, ?_⟩
  simp [Storage.add_lesson_report]
